import Mathlib

/-!
Shallow embedding of the scrape-orchestration and change-classification core of
the bluray-tracker repository (src/src/domain/change_detector.hpp,
src/src/application/scheduler.cpp), with theorems settling the frozen claims.

Currency amounts (C++ `double` prices) are modelled as exact rationals: every
claim in scope is about order comparisons and equality of prices, which the
rationals represent exactly.  Timestamps are opaque naturals.  C++ exceptions
are modelled explicitly: a notification sink carries a `throwsOn` flag, and the
functions that the exception can escape from report it in a `threw` field.
-/

namespace Bluray

/-- Price values, exact stand-in for the C++ `double` fields. -/
abbrev Price := ℚ

/-- The 0.01 currency-unit epsilon used by the code, in a kernel-computable
normal form. -/
def priceEps : Price := mkRat 1 100

/-- The epsilon is exactly 0.01 = 1/100. -/
theorem priceEps_eq : priceEps = 1/100 := by norm_num [priceEps]

/-- Absolute value on prices, modelling `std::abs` directly. -/
def absQ (q : ℚ) : ℚ := if q < 0 then -q else q

/-- The explicit absolute value agrees with Mathlib's. -/
theorem absQ_eq_abs (q : ℚ) : absQ q = |q| := by
  unfold absQ
  rcases lt_or_le q 0 with h | h
  · rw [if_pos h, abs_of_neg h]
  · rw [if_neg (not_lt.2 h), abs_of_nonneg h]

/-- Embedding of `bluray::domain::Product` (models.hpp). -/
structure Product where
  url : String := ""
  title : String := ""
  price : Price := 0
  in_stock : Bool := false
  is_uhd_4k : Bool := false
  image_url : String := ""
  local_image_path : String := ""
  last_updated : Nat := 0
  source : String := ""
deriving Repr, DecidableEq

/-- Embedding of `bluray::domain::WishlistItem` (models.hpp). -/
structure WishlistItem where
  id : Nat := 0
  url : String := ""
  title : String := ""
  current_price : Price := 0
  desired_max_price : Price := 0
  in_stock : Bool := false
  is_uhd_4k : Bool := false
  image_url : String := ""
  local_image_path : String := ""
  source : String := ""
  created_at : Nat := 0
  last_checked : Nat := 0
  notify_on_price_drop : Bool := true
  notify_on_stock : Bool := true
  title_locked : Bool := false
  tmdb_id : Nat := 0
  imdb_id : String := ""
  tmdb_rating : Price := 0
  trailer_key : String := ""
  edition_type : String := ""
  has_slipcover : Bool := false
  has_digital_copy : Bool := false
  bonus_features : String := ""
deriving Repr, DecidableEq

/-- Embedding of `bluray::domain::ChangeType` (models.hpp). -/
inductive ChangeType where
  | PriceDroppedBelowThreshold
  | BackInStock
  | PriceChanged
  | OutOfStock
deriving Repr, DecidableEq

/-- Embedding of `bluray::domain::ChangeEvent` (models.hpp). -/
structure ChangeEvent where
  type : ChangeType
  item : WishlistItem
  old_price : Option Price := none
  new_price : Option Price := none
  old_stock_status : Option Bool := none
  new_stock_status : Option Bool := none
  detected_at : Nat := 0
deriving Repr, DecidableEq

/-- A notification sink (`bluray::application::notifier::INotifier`).
`configured` models `isConfigured()`; `throwsOn` models whether this sink's
`notify` raises a C++ exception when invoked. -/
structure Sink where
  sid : Nat := 0
  configured : Bool := true
  throwsOn : Bool := false
deriving Repr, DecidableEq

/-- Embedding of `ChangeDetector::notifyObservers` (change_detector.hpp lines
109-115): iterate over the registered observer list in order, skip null
observers, and call `onChangeDetected` on the rest.  The loop body has no
exception handling, so an observer that throws terminates the loop.  Returns
the list of sinks whose `notify` was invoked (in invocation order) and whether
an exception escaped. -/
def notifyObservers : List (Option Sink) → ChangeEvent → List Sink × Bool
  | [], _ => ([], false)
  | none :: rest, e => notifyObservers rest e
  | some s :: rest, e =>
    if s.throwsOn then ([s], true)
    else
      let r := notifyObservers rest e
      (s :: r.1, r.2)

/-- Result of one `ChangeDetector::detectChanges` call: the returned event
vector, the sinks whose `notify` was invoked, and whether an exception escaped
(in which case the C++ return value is lost to the caller). -/
structure DetectResult where
  events : List ChangeEvent
  invoked : List Sink
  threw : Bool
deriving Repr, DecidableEq

/-- Embedding of `ChangeDetector::detectChanges` (change_detector.hpp lines
42-106): the strict else-if precedence chain over the (old, new) item pair.
Observers are notified inside the first two branches only. -/
def detectChanges (observers : List (Option Sink)) (old_item new_item : WishlistItem)
    (now : Nat) : DetectResult :=
  if new_item.notify_on_price_drop ∧ new_item.in_stock ∧
      new_item.current_price ≤ new_item.desired_max_price ∧
      new_item.desired_max_price < old_item.current_price then
    let event : ChangeEvent :=
      { type := ChangeType.PriceDroppedBelowThreshold, item := new_item,
        old_price := some old_item.current_price,
        new_price := some new_item.current_price, detected_at := now }
    let r := notifyObservers observers event
    { events := [event], invoked := r.1, threw := r.2 }
  else if new_item.notify_on_stock ∧ old_item.in_stock = false ∧ new_item.in_stock then
    let event : ChangeEvent :=
      { type := ChangeType.BackInStock, item := new_item,
        old_stock_status := some old_item.in_stock,
        new_stock_status := some new_item.in_stock, detected_at := now }
    let r := notifyObservers observers event
    { events := [event], invoked := r.1, threw := r.2 }
  else if priceEps < absQ (old_item.current_price - new_item.current_price) then
    let event : ChangeEvent :=
      { type := ChangeType.PriceChanged, item := new_item,
        old_price := some old_item.current_price,
        new_price := some new_item.current_price, detected_at := now }
    { events := [event], invoked := [], threw := false }
  else if old_item.in_stock ∧ new_item.in_stock = false then
    let event : ChangeEvent :=
      { type := ChangeType.OutOfStock, item := new_item,
        old_stock_status := some old_item.in_stock,
        new_stock_status := some new_item.in_stock, detected_at := now }
    { events := [event], invoked := [], threw := false }
  else
    { events := [], invoked := [], threw := false }

/-- The classification chain exactly as the spec's words state it (refinement
reference for claim C1): a first-match precedence chain producing at most one
event kind. -/
def specClassify (old_item new_item : WishlistItem) : Option ChangeType :=
  if new_item.notify_on_price_drop ∧ new_item.in_stock ∧
      new_item.current_price ≤ new_item.desired_max_price ∧
      new_item.desired_max_price < old_item.current_price then
    some ChangeType.PriceDroppedBelowThreshold
  else if new_item.notify_on_stock ∧ old_item.in_stock = false ∧ new_item.in_stock then
    some ChangeType.BackInStock
  else if priceEps < absQ (old_item.current_price - new_item.current_price) then
    some ChangeType.PriceChanged
  else if old_item.in_stock ∧ new_item.in_stock = false then
    some ChangeType.OutOfStock
  else
    none

/-- C1: For every pair (old, new) of tracked-item states, `detectChanges`
produces at most one `ChangeEvent`, chosen by the strict first-match precedence
chain PriceDroppedBelowThreshold, else BackInStock, else PriceChanged, else
OutOfStock, else nothing; never two events for one call. -/
theorem C1_classification_precedence (observers : List (Option Sink))
    (old_item new_item : WishlistItem) (now : Nat) :
    (detectChanges observers old_item new_item now).events.map (fun e => e.type) =
      (specClassify old_item new_item).toList ∧
    (detectChanges observers old_item new_item now).events.length ≤ 1 := by
  unfold detectChanges specClassify
  split_ifs <;> simp

/-- Embedding of the merge portion of `Scheduler::updateWishlistItem`
(scheduler.cpp lines 290-323): copy the old item, conditionally patch title and
price, unconditionally overwrite stock, format flag and image URL, patch the
local image path, and overwrite source and last-checked. -/
def mergeItem (old_item : WishlistItem) (p : Product) : WishlistItem :=
  let i1 := if old_item.title_locked = false ∧ p.title ≠ "" then
    { old_item with title := p.title } else old_item
  let i2 := if priceEps < p.price then { i1 with current_price := p.price } else i1
  let i3 := { i2 with in_stock := p.in_stock, is_uhd_4k := p.is_uhd_4k, image_url := p.image_url }
  let i4 :=
    if p.local_image_path ≠ "" then { i3 with local_image_path := p.local_image_path }
    else if p.image_url ≠ old_item.image_url ∧ p.image_url ≠ "" then
      { i3 with local_image_path := "" }
    else i3
  { i4 with source := p.source, last_checked := p.last_updated }

/-- The zero-price warning branch of `Scheduler::updateWishlistItem`
(scheduler.cpp lines 295-301): entered when the price patch did not fire and
the snapshot reports in-stock with a price below the epsilon.  It only logs. -/
def logsZeroPriceWarning (p : Product) : Bool :=
  if priceEps < p.price then false
  else if p.in_stock ∧ p.price < priceEps then true
  else false

/-- Observable side effects of one per-item update, in program order. -/
inductive Action where
  | notified (s : Sink)
  | saveAttempt (it : WishlistItem) (ok : Bool)
  | historyAppend (item_id : Nat) (price : Price) (in_stock : Bool)
deriving Repr, DecidableEq

/-- Whether an action is the history-ledger append. -/
def Action.isHistory : Action → Bool
  | .historyAppend _ _ _ => true
  | _ => false

/-- Result of one `Scheduler::updateWishlistItem` call: the ordered side-effect
trace and whether a sink exception escaped the call. -/
structure UpdateResult where
  trace : List Action
  threw : Bool
deriving Repr, DecidableEq

/-- Embedding of `Scheduler::updateWishlistItem` (scheduler.cpp lines 287-348):
merge the snapshot, run `detectChanges` (which performs the notification
fan-out), then attempt the repository save; on save failure return early so no
history entry is appended; on success append one history entry with the merged
item's post-merge price and stock flag.  `saveOk` is the environment's verdict
on `repo.update`.  There is no exception handling, so a sink exception escapes
before the save is attempted. -/
def updateWishlistItem (observers : List (Option Sink)) (old_item : WishlistItem)
    (p : Product) (saveOk : Bool) (now : Nat) : UpdateResult :=
  let updated_item := mergeItem old_item p
  let d := detectChanges observers old_item updated_item now
  if d.threw then
    { trace := d.invoked.map Action.notified, threw := true }
  else if saveOk then
    { trace := d.invoked.map Action.notified ++
        [Action.saveAttempt updated_item true,
         Action.historyAppend updated_item.id updated_item.current_price
           updated_item.in_stock],
      threw := false }
  else
    { trace := d.invoked.map Action.notified ++ [Action.saveAttempt updated_item false],
      threw := false }

/-- Concrete snapshot for C2: zero price reported together with in-stock. -/
def productC2 : Product := { price := 0, in_stock := true }

/-- Concrete tracked item for C2 with a nonzero current price. -/
def oldItemC2 : WishlistItem := { current_price := 40, desired_max_price := 35 }

/-- C2 counterexample: for a snapshot with price 0 and in-stock true against an
item priced 40, the warning branch fires but the merged item keeps price 40;
the zero price is NOT applied to the item's current price, contradicting the
claim that it is "still applied". -/
theorem C2_counterexample :
    logsZeroPriceWarning productC2 = true ∧
    (mergeItem oldItemC2 productC2).current_price = 40 ∧
    (mergeItem oldItemC2 productC2).current_price ≠ productC2.price := by
  refine ⟨by decide, by decide, by decide⟩

/-- C2 (amended): the item's price is overwritten exactly when the snapshot's
price is meaningfully positive (> 0.01); otherwise the old current price is
retained, and when the snapshot reports in-stock with a price below 0.01 the
probable extraction error is logged — the zero price is not applied. -/
theorem C2_price_merge_amended (old_item : WishlistItem) (p : Product) :
    (priceEps < p.price → (mergeItem old_item p).current_price = p.price) ∧
    (¬ priceEps < p.price →
      (mergeItem old_item p).current_price = old_item.current_price) ∧
    (p.in_stock = true → p.price < priceEps → logsZeroPriceWarning p = true) := by
  refine ⟨fun h => ?_, fun h => ?_, fun hs hp => ?_⟩
  · simp only [mergeItem]
    split_ifs <;> simp_all
  · simp only [mergeItem]
    split_ifs <;> simp_all
  · simp only [logsZeroPriceWarning]
    split_ifs with h1 h2
    · exact absurd (h1.trans hp) (lt_irrefl _)
    · rfl
    · exact absurd ⟨hs, hp⟩ h2

/-- Witness for the amended C2 theorem at the concrete zero-price snapshot. -/
theorem C2_price_merge_amended_witness :
    (mergeItem oldItemC2 productC2).current_price = oldItemC2.current_price ∧
    logsZeroPriceWarning productC2 = true :=
  ⟨(C2_price_merge_amended oldItemC2 productC2).2.1 (by decide),
   (C2_price_merge_amended oldItemC2 productC2).2.2 rfl (by decide)⟩

/-- C10: within a per-item update, classification and sink notification happen
before the repository save is attempted: the trace is exactly the notification
actions, then the save attempt, then (only on save success) the history append;
hence on save failure the sinks were already notified of a change whose new
state is never persisted and no history entry is written. -/
theorem C10_notify_before_save (observers : List (Option Sink))
    (old_item : WishlistItem) (p : Product) (saveOk : Bool) (now : Nat)
    (h : (detectChanges observers old_item (mergeItem old_item p) now).threw = false) :
    (updateWishlistItem observers old_item p saveOk now).trace =
      ((detectChanges observers old_item (mergeItem old_item p) now).invoked.map
          Action.notified)
        ++ [Action.saveAttempt (mergeItem old_item p) saveOk]
        ++ (if saveOk then
              [Action.historyAppend (mergeItem old_item p).id
                (mergeItem old_item p).current_price (mergeItem old_item p).in_stock]
            else []) ∧
    (saveOk = false →
      (updateWishlistItem observers old_item p saveOk now).trace.all
        (fun a => !a.isHistory) = true) := by
  constructor
  · cases saveOk <;> simp [updateWishlistItem, h]
  · intro hsave
    subst hsave
    simp [updateWishlistItem, h, Action.isHistory]

/-- Concrete sink for the C10 witness. -/
def sinkA : Sink := { sid := 1 }

/-- Concrete out-of-stock tracked item for the C10 witness. -/
def oldOut : WishlistItem := { in_stock := false, current_price := 20 }

/-- Concrete in-stock snapshot for the C10 witness (triggers BackInStock). -/
def prodIn : Product := { price := 20, in_stock := true }

/-- Witness for C10 at a concrete back-in-stock transition whose save fails:
the sink was notified, then the save was attempted, and no history entry
appears in the trace. -/
theorem C10_notify_before_save_witness :
    (updateWishlistItem [some sinkA] oldOut prodIn false 0).trace =
      [Action.notified sinkA, Action.saveAttempt (mergeItem oldOut prodIn) false] := by
  have h := (C10_notify_before_save [some sinkA] oldOut prodIn false 0 (by decide)).1
  rw [h]
  decide

/-- When no registered sink throws, `notifyObservers` invokes every non-null
registered sink, in registration order, and no exception escapes. -/
theorem notifyObservers_noThrow (e : ChangeEvent) :
    ∀ observers : List (Option Sink),
      (∀ s : Sink, some s ∈ observers → s.throwsOn = false) →
      notifyObservers observers e = (observers.filterMap id, false) := by
  intro observers
  induction observers with
  | nil => intro _; rfl
  | cons o rest ih =>
    intro h
    cases o with
    | none =>
      simpa [notifyObservers] using ih (fun s hs => h s (List.mem_cons_of_mem _ hs))
    | some s =>
      have hs : s.throwsOn = false := h s (List.mem_cons_self _ _)
      simp [notifyObservers, hs, ih (fun t ht => h t (List.mem_cons_of_mem _ ht))]

/-- When the registered list is a non-throwing prefix followed by a throwing
sink, `notifyObservers` invokes exactly the prefix and the throwing sink, the
exception escapes, and the sinks after the thrower are never invoked. -/
theorem notifyObservers_throwAt (e : ChangeEvent) (s : Sink)
    (hs : s.throwsOn = true) :
    ∀ pre post : List (Option Sink),
      (∀ t : Sink, some t ∈ pre → t.throwsOn = false) →
      notifyObservers (pre ++ some s :: post) e = (pre.filterMap id ++ [s], true) := by
  intro pre
  induction pre with
  | nil => intro post _; simp [notifyObservers, hs]
  | cons o rest ih =>
    intro post h
    cases o with
    | none =>
      simpa [notifyObservers] using ih post (fun t ht => h t (List.mem_cons_of_mem _ ht))
    | some t =>
      have ht : t.throwsOn = false := h t (List.mem_cons_self _ _)
      simp [notifyObservers, ht, ih post (fun u hu => h u (List.mem_cons_of_mem _ hu))]

/-- Outcome of `Scheduler::scrapeProduct` for one item, as decided by the
environment (the scraper network layer): either a failure message or a fetched
`Product` snapshot (image caching already folded into its fields). -/
inductive FetchOutcome where
  | failed (msg : String)
  | ok (p : Product)
deriving Repr, DecidableEq

/-- Per-item environment verdicts: the scrape outcome and whether the
repository accepts the save (`repo.update`). -/
structure ItemEnv where
  fetch : FetchOutcome
  saveOk : Bool := true
deriving Repr, DecidableEq

/-- The run-local counters of `Scheduler::runOnce` (`processed_count`,
`success_count`, `error_count`). -/
structure Counters where
  processed : Nat := 0
  success : Nat := 0
  error : Nat := 0
deriving Repr, DecidableEq

/-- Embedding of the `process_item` lambda of `Scheduler::runOnce`
(scheduler.cpp lines 76-102): on fetch failure increment the error and
processed counters; on fetch success run `updateWishlistItem` and increment the
success and processed counters — note the success counter is incremented
regardless of the repository save verdict, since `updateWishlistItem` returns
`void`.  A sink exception escaping `updateWishlistItem` skips all counter
increments (it is captured by the task's future). -/
def processItem (observers : List (Option Sink)) (item : WishlistItem) (env : ItemEnv)
    (now : Nat) (c : Counters) : Counters :=
  match env.fetch with
  | FetchOutcome.failed _ => { c with error := c.error + 1, processed := c.processed + 1 }
  | FetchOutcome.ok p =>
    if (updateWishlistItem observers item p env.saveOk now).threw then c
    else { c with success := c.success + 1, processed := c.processed + 1 }

/-- Whether the per-item task lets a C++ exception escape into its future. -/
def taskThrew (observers : List (Option Sink)) (item : WishlistItem) (env : ItemEnv)
    (now : Nat) : Bool :=
  match env.fetch with
  | FetchOutcome.failed _ => false
  | FetchOutcome.ok p => (updateWishlistItem observers item p env.saveOk now).threw

/-- The scheduler's persistent fields (`is_running_`, `scrape_total_`,
`scrape_processed_`). -/
structure SchedState where
  is_running : Bool := false
  scrape_total : Nat := 0
  scrape_processed : Nat := 0
deriving Repr, DecidableEq

/-- What one `Scheduler::runOnce` call yields: the returned processed count,
the run-local counters at completion, and the scheduler state afterwards. -/
structure RunResult where
  ret : Nat
  counters : Counters
  state : SchedState
deriving Repr, DecidableEq

/-- Embedding of `Scheduler::runOnce` (scheduler.cpp lines 44-151), with the
bounded-concurrency launch loop abstracted to its sequential effect on the
counters (each task runs `process_item` exactly once; the admission window is
modelled separately for C8).  If a run is already active (`is_running_`
exchange), return 0 with nothing altered; if the wishlist is empty, return 0
without touching the progress counters; otherwise set total, zero the
processed counter, fold `process_item` over the items, clear the running flag
and return the processed count. -/
def runOnce (observers : List (Option Sink)) (s : SchedState) (items : List WishlistItem)
    (env : WishlistItem → ItemEnv) (now : Nat) : RunResult :=
  if s.is_running then
    { ret := 0, counters := {}, state := s }
  else if items.isEmpty then
    { ret := 0, counters := {}, state := { s with is_running := false } }
  else
    let c := items.foldl (fun acc it => processItem observers it (env it) now acc) {}
    let final : SchedState :=
      { is_running := false, scrape_total := items.length, scrape_processed := c.processed }
    { ret := c.processed, counters := c, state := final }

/-- A throwing sink for the C4 and C5 counterexamples. -/
def sinkT : Sink := { sid := 1, throwsOn := true }

/-- A well-behaved second sink for the C4 and C5 counterexamples. -/
def sinkB : Sink := { sid := 2 }

/-- C4 counterexample: sinkB is registered and configured, the classification
is BackInStock, yet sinkB's notify is never invoked, because the sink
registered before it throws.  This refutes the claim that the two alert kinds
ALWAYS invoke notify() on every registered, configured sink. -/
theorem C4_counterexample :
    sinkB.configured = true ∧
    some sinkB ∈ ([some sinkT, some sinkB] : List (Option Sink)) ∧
    (detectChanges [some sinkT, some sinkB] oldOut (mergeItem oldOut prodIn) 0).events.map
      (fun e => e.type) = [ChangeType.BackInStock] ∧
    sinkB ∉ (detectChanges [some sinkT, some sinkB] oldOut (mergeItem oldOut prodIn) 0).invoked := by
  exact ⟨by decide, by decide, by decide, by decide⟩

/-- C4 (amended): for every classification call, PriceChanged and OutOfStock
classifications never invoke notify() on any sink — unconditionally; and
PriceDroppedBelowThreshold and BackInStock invoke notify() on every registered
sink (all of which are configured, since `Scheduler::addNotifier` only
registers configured non-null sinks) provided no registered sink throws — a
throwing sink cuts the fan-out short for the sinks registered after it. -/
theorem C4_sink_fanout_selectivity_amended (observers : List (Option Sink))
    (old_item new_item : WishlistItem) (now : Nat) :
    (((detectChanges observers old_item new_item now).events.map (fun e => e.type) =
          [ChangeType.PriceChanged] ∨
        (detectChanges observers old_item new_item now).events.map (fun e => e.type) =
          [ChangeType.OutOfStock] ∨
        (detectChanges observers old_item new_item now).events = []) →
      (detectChanges observers old_item new_item now).invoked = []) ∧
    ((∀ s : Sink, some s ∈ observers → s.throwsOn = false) →
      (((detectChanges observers old_item new_item now).events.map (fun e => e.type) =
            [ChangeType.PriceDroppedBelowThreshold] ∨
          (detectChanges observers old_item new_item now).events.map (fun e => e.type) =
            [ChangeType.BackInStock]) →
        (detectChanges observers old_item new_item now).invoked = observers.filterMap id)) := by
  unfold detectChanges
  split_ifs <;>
    exact ⟨by simp, fun hok => by simp [notifyObservers_noThrow _ observers hok]⟩

/-- Witness for the amended C4 theorem: at a concrete back-in-stock transition
with one registered non-throwing sink, that sink is invoked. -/
theorem C4_sink_fanout_selectivity_amended_witness :
    (detectChanges [some sinkA] oldOut (mergeItem oldOut prodIn) 0).invoked = [sinkA] := by
  have h := (C4_sink_fanout_selectivity_amended [some sinkA] oldOut
      (mergeItem oldOut prodIn) 0).2
    (fun s hs => by
      have : some s = some sinkA := by simpa using hs
      cases Option.some.inj this
      rfl)
    (Or.inr (by decide))
  rw [h]
  decide

/-- C5 counterexample: with sinks [sinkT (throws), sinkB] registered and a
BackInStock transition, only sinkT is invoked — the exception prevents sinkB
from being notified — and the per-item task aborts: `processItem` leaves every
counter untouched.  This contradicts the claim that a throwing sink does not
prevent the remaining sinks from being invoked and does not abort the task. -/
theorem C5_counterexample :
    (detectChanges [some sinkT, some sinkB] oldOut (mergeItem oldOut prodIn) 0).invoked =
      [sinkT] ∧
    (detectChanges [some sinkT, some sinkB] oldOut (mergeItem oldOut prodIn) 0).threw =
      true ∧
    sinkB ∉ (detectChanges [some sinkT, some sinkB] oldOut (mergeItem oldOut prodIn) 0).invoked ∧
    processItem [some sinkT, some sinkB] oldOut
      { fetch := FetchOutcome.ok prodIn, saveOk := true } 0
      { processed := 0, success := 0, error := 0 } =
      { processed := 0, success := 0, error := 0 } := by
  exact ⟨by decide, by decide, by decide, by decide⟩

/-- C5 (amended): for the notifying event kinds, every registered sink's
notify(event) is invoked synchronously in registration order provided no sink
throws; there is no exception handling in `notifyObservers` or at its call
site, so a sink that throws is the last one invoked — the remaining registered
sinks are not invoked — and the exception aborts the calling per-item task,
leaving all run counters untouched for that item.  (A sink that merely fails
internally without throwing, as the shipped notifiers do on network errors,
returns normally and does not disturb the fan-out.) -/
theorem C5_sink_exception_amended :
    (∀ (e : ChangeEvent) (observers : List (Option Sink)),
      (∀ s : Sink, some s ∈ observers → s.throwsOn = false) →
      notifyObservers observers e = (observers.filterMap id, false)) ∧
    (∀ (e : ChangeEvent) (s : Sink) (pre post : List (Option Sink)),
      s.throwsOn = true →
      (∀ t : Sink, some t ∈ pre → t.throwsOn = false) →
      notifyObservers (pre ++ some s :: post) e = (pre.filterMap id ++ [s], true)) ∧
    (∀ (observers : List (Option Sink)) (item : WishlistItem) (p : Product)
        (saveOk : Bool) (now : Nat) (c : Counters),
      (updateWishlistItem observers item p saveOk now).threw = true →
      processItem observers item { fetch := FetchOutcome.ok p, saveOk := saveOk } now c = c) := by
  refine ⟨fun e observers h => notifyObservers_noThrow e observers h,
    fun e s pre post hs h => notifyObservers_throwAt e s hs pre post h,
    fun observers item p saveOk now c h => ?_⟩
  simp [processItem, h]

/-- Witness for the amended C5 theorem: concretely, a well-behaved sink
followed by a throwing one yields both invocations, in order, with the
exception escaping; and the concrete aborted task leaves the counters at 0. -/
theorem C5_sink_exception_amended_witness :
    notifyObservers [some sinkB, some sinkT]
      { type := ChangeType.BackInStock, item := {} } = ([sinkB, sinkT], true) ∧
    processItem [some sinkT, some sinkB] oldOut
      { fetch := FetchOutcome.ok prodIn, saveOk := true } 0 {} = {} := by
  constructor
  · have h := C5_sink_exception_amended.2.1
      { type := ChangeType.BackInStock, item := {} } sinkT [some sinkB] [] (by decide)
      (fun t ht => by
        have : some t = some sinkB := by simpa using ht
        cases Option.some.inj this
        rfl)
    simpa using h
  · exact C5_sink_exception_amended.2.2 [some sinkT, some sinkB] oldOut prodIn true 0 {}
      (by decide)

/-- C3 counterexample: a concrete item (price 40, threshold 35, no sinks)
whose fetch succeeds (price 20, in stock) but whose repository save fails:
`process_item` increments the SUCCESS counter, not the failure counter — the
task stops before the history write, but the run does not record a failure.
This contradicts the claim that the failure counter is incremented. -/
theorem C3_counterexample :
    processItem [] oldItemC2 { fetch := FetchOutcome.ok prodIn, saveOk := false } 0
      { processed := 0, success := 0, error := 0 } =
      { processed := 1, success := 1, error := 0 } ∧
    (updateWishlistItem [] oldItemC2 prodIn false 0).trace.all
      (fun a => !a.isHistory) = true := by
  exact ⟨by decide, by decide⟩

/-- C3 (amended): for every per-item task whose snapshot fetch succeeds but
whose repository save fails (and no sink throws), the task stops before the
history write — no history entry is appended — but the run counts the item as
a success: the success and processed counters are incremented and the failure
counter is untouched, because `updateWishlistItem` returns `void` and
`process_item` increments `success_count` whenever the scrape succeeded. -/
theorem C3_save_failure_amended (observers : List (Option Sink)) (item : WishlistItem)
    (p : Product) (now : Nat) (c : Counters)
    (h : (detectChanges observers item (mergeItem item p) now).threw = false) :
    processItem observers item { fetch := FetchOutcome.ok p, saveOk := false } now c =
      { c with success := c.success + 1, processed := c.processed + 1 } ∧
    (updateWishlistItem observers item p false now).trace.all
      (fun a => !a.isHistory) = true := by
  constructor
  · simp [processItem, updateWishlistItem, h]
  · simp [updateWishlistItem, h, Action.isHistory]

/-- Witness for the amended C3 theorem at the concrete failing save. -/
theorem C3_save_failure_amended_witness :
    processItem [] oldItemC2 { fetch := FetchOutcome.ok prodIn, saveOk := false } 0 {} =
      { processed := 1, success := 1, error := 0 } := by
  have h := (C3_save_failure_amended [] oldItemC2 prodIn 0 {} (by decide)).1
  rw [h]

/-- C6: calling runOnce() while a run is already active returns 0 immediately,
does not start a second run, and leaves the scheduler state — including the
in-progress run's progress counters — exactly as it was. -/
theorem C6_reentrancy_guard (observers : List (Option Sink)) (s : SchedState)
    (items : List WishlistItem) (env : WishlistItem → ItemEnv) (now : Nat)
    (h : s.is_running = true) :
    runOnce observers s items env now = { ret := 0, counters := {}, state := s } := by
  simp [runOnce, h]

/-- A scheduler state captured mid-run, for the C6 witness. -/
def midRunState : SchedState := { is_running := true, scrape_total := 7, scrape_processed := 3 }

/-- Witness for C6: a second runOnce() against a mid-run state returns 0 and
leaves the counters at their in-progress values. -/
theorem C6_reentrancy_guard_witness :
    runOnce [] midRunState [oldItemC2] (fun _ => { fetch := FetchOutcome.failed "" }) 0 =
      { ret := 0, counters := {}, state := midRunState } :=
  C6_reentrancy_guard [] midRunState [oldItemC2] (fun _ => { fetch := FetchOutcome.failed "" })
    0 rfl

/-- One non-throwing task increments the processed counter by one and exactly
one of the success/error counters. -/
theorem processItem_counts (observers : List (Option Sink)) (item : WishlistItem)
    (env : ItemEnv) (now : Nat) (c : Counters)
    (h : taskThrew observers item env now = false) :
    (processItem observers item env now c).processed = c.processed + 1 ∧
    (processItem observers item env now c).success +
      (processItem observers item env now c).error = c.success + c.error + 1 := by
  unfold taskThrew at h
  unfold processItem
  cases hf : env.fetch with
  | failed msg => simp [hf] at h ⊢; omega
  | ok p =>
    simp only [hf] at h ⊢
    simp [h]
    omega

/-- Folding the per-item tasks over a run's item list adds the item count to
the processed counter and to the success+error total, provided no task lets an
exception escape. -/
theorem foldl_processItem_counts (observers : List (Option Sink))
    (env : WishlistItem → ItemEnv) (now : Nat) :
    ∀ (items : List WishlistItem) (c : Counters),
      (∀ it ∈ items, taskThrew observers it (env it) now = false) →
      ((items.foldl (fun acc it => processItem observers it (env it) now acc) c).processed =
          c.processed + items.length ∧
        (items.foldl (fun acc it => processItem observers it (env it) now acc) c).success +
          (items.foldl (fun acc it => processItem observers it (env it) now acc) c).error =
          c.success + c.error + items.length) := by
  intro items
  induction items with
  | nil => intro c _; simp
  | cons a l ih =>
    intro c h
    have ha := processItem_counts observers a (env a) now c (h a (List.mem_cons_self _ _))
    have hl := ih (processItem observers a (env a) now c)
      (fun it hit => h it (List.mem_cons_of_mem _ hit))
    simp only [List.foldl_cons, List.length_cons]
    omega

/-- C7: for every run over N tracked items that completes normally (the
scheduler is not already running and no task lets an exception escape), after
runOnce() returns the processed counter equals N, the returned value equals N,
and the success counter plus the failure counter equals N; moreover for a
non-empty run the persistent progress counters also end at N. -/
theorem C7_run_counts (observers : List (Option Sink)) (s : SchedState)
    (items : List WishlistItem) (env : WishlistItem → ItemEnv) (now : Nat)
    (hrun : s.is_running = false)
    (hth : ∀ it ∈ items, taskThrew observers it (env it) now = false) :
    (runOnce observers s items env now).ret = items.length ∧
    (runOnce observers s items env now).counters.processed = items.length ∧
    (runOnce observers s items env now).counters.success +
      (runOnce observers s items env now).counters.error = items.length ∧
    (items ≠ [] →
      (runOnce observers s items env now).state.scrape_processed = items.length ∧
      (runOnce observers s items env now).state.scrape_total = items.length) := by
  cases items with
  | nil => simp [runOnce, hrun]
  | cons a l =>
    have hfold := foldl_processItem_counts observers env now (a :: l) {} hth
    simp only [runOnce, hrun, Bool.false_eq_true, if_false, List.isEmpty_cons,
      if_neg (by simp : ¬(false = true))]
    refine ⟨?_, ?_, ?_, fun _ => ⟨?_, ?_⟩⟩ <;> simp_all

/-- Two distinct concrete items for the C7 witness, one whose fetch fails. -/
def itemW1 : WishlistItem := { id := 1, url := "u1", current_price := 10 }

/-- Second concrete item for the C7 witness, fetched successfully. -/
def itemW2 : WishlistItem := { id := 2, url := "u2", current_price := 40, desired_max_price := 35 }

/-- Environment for the C7 witness: item 1's fetch fails, everything else
fetches `prodIn` and saves fine. -/
def envW (it : WishlistItem) : ItemEnv :=
  if it.id = 1 then { fetch := FetchOutcome.failed "timeout" } else { fetch := FetchOutcome.ok prodIn }

/-- Witness for C7: a fresh run over two items (one fetch failure, one
success) returns 2 with processed 2 and success+failure = 2. -/
theorem C7_run_counts_witness :
    (runOnce [] {} [itemW1, itemW2] envW 0).ret = 2 ∧
    (runOnce [] {} [itemW1, itemW2] envW 0).counters.success +
      (runOnce [] {} [itemW1, itemW2] envW 0).counters.error = 2 := by
  have h := C7_run_counts [] {} [itemW1, itemW2] envW 0 rfl
    (by
      intro it hit
      rcases List.mem_cons.1 hit with rfl | hit
      · decide
      rcases List.mem_cons.1 hit with rfl | hit
      · decide
      exact absurd hit (List.not_mem_nil _))
  exact ⟨h.1, h.2.2.1⟩

/-- The hardcoded concurrency limit of `Scheduler::runOnce` (scheduler.cpp
line 73). -/
def kConcurrency : Nat := 4

/-- The future-cleanup step of the launch loop (scheduler.cpp lines 105-112):
erase the futures that are already ready, preserving order.  Futures are
identified by their launch index; `ready` is the environment's verdict on
`wait_for(0) == ready`. -/
def reapReady (ready : Nat → Bool) (futures : List Nat) : List Nat :=
  futures.filter (fun t => !(ready t))

/-- One admission step of the launch loop (scheduler.cpp lines 104-122): reap
ready futures; if still at capacity, block on the oldest in-flight future
(the front of the list) and erase it; then launch the next task at the back. -/
def launchStep (ready : Nat → Bool) (futures : List Nat) (t : Nat) : List Nat :=
  let fs1 := reapReady ready futures
  let fs2 := if kConcurrency ≤ fs1.length then fs1.drop 1 else fs1
  fs2 ++ [t]

/-- The successive futures-list states of a run's launch loop: the state before
the first launch, then the state after each of the `n` launches.  `ready` gives
each loop iteration's readiness verdict per future. -/
def launchStatesFrom (ready : Nat → Nat → Bool) (fs : List Nat) (step : Nat) :
    Nat → List (List Nat)
  | 0 => [fs]
  | n+1 => fs :: launchStatesFrom ready (launchStep (ready step) fs step) (step+1) n

/-- The launch-loop states of a full run over `n` items, starting from an
empty in-flight set. -/
def launchStates (ready : Nat → Nat → Bool) (n : Nat) : List (List Nat) :=
  launchStatesFrom ready [] 0 n

/-- Reaping never grows the futures list. -/
theorem reapReady_length_le (ready : Nat → Bool) (futures : List Nat) :
    (reapReady ready futures).length ≤ futures.length :=
  List.length_filter_le _ _

/-- One admission step preserves the capacity bound. -/
theorem launchStep_length_le (ready : Nat → Bool) (futures : List Nat) (t : Nat)
    (h : futures.length ≤ kConcurrency) :
    (launchStep ready futures t).length ≤ kConcurrency := by
  unfold launchStep
  dsimp only
  have hre := reapReady_length_le ready futures
  have hK : kConcurrency = 4 := rfl
  split_ifs with hc <;> simp [List.length_drop] <;> omega

/-- Every launch-loop state reachable from a within-capacity state is within
capacity. -/
theorem launchStatesFrom_bounded (ready : Nat → Nat → Bool) :
    ∀ (n : Nat) (fs : List Nat) (step : Nat), fs.length ≤ kConcurrency →
      ∀ st ∈ launchStatesFrom ready fs step n, st.length ≤ kConcurrency := by
  intro n
  induction n with
  | zero =>
    intro fs step h st hst
    simp only [launchStatesFrom, List.mem_singleton] at hst
    subst hst
    exact h
  | succ n ih =>
    intro fs step h st hst
    simp only [launchStatesFrom, List.mem_cons] at hst
    rcases hst with rfl | hst
    · exact h
    · exact ih _ _ (launchStep_length_le _ _ _ h) st hst

/-- C8: at every point of the launch loop the in-flight futures list holds at
most kConcurrency = 4 tasks: before each launch the loop reaps finished
futures, and if still at capacity it removes (after blocking on) the oldest
in-flight future — the front of the FIFO list — before appending the new
task. -/
theorem C8_inflight_bounded (ready : Nat → Nat → Bool) (n : Nat) :
    (∀ st ∈ launchStates ready n, st.length ≤ kConcurrency) ∧
    (∀ (r : Nat → Bool) (fs : List Nat) (t : Nat),
      kConcurrency ≤ (reapReady r fs).length →
      launchStep r fs t = (reapReady r fs).drop 1 ++ [t]) := by
  constructor
  · exact launchStatesFrom_bounded ready n [] 0 (by simp)
  · intro r fs t h
    unfold launchStep
    simp [h]

/-- Readiness oracle for the C8 witness: no task ever finishes early, forcing
the window to stay full. -/
def readyNone : Nat → Nat → Bool := fun _ _ => false

/-- Witness for C8: with six launches and no task finishing early, the final
in-flight set is [2, 3, 4, 5] — a reachable state — and its size is within the
limit. -/
theorem C8_inflight_bounded_witness :
    ([2, 3, 4, 5] : List Nat).length ≤ kConcurrency :=
  (C8_inflight_bounded readyNone 6).1 [2, 3, 4, 5] (by decide)

/-- Embedding of the launch throttle (scheduler.cpp lines 124-136): skipped
when the configured delay is not positive; otherwise the delay in seconds
times 1000, divided by the concurrency limit, clamped up to at least 1000ms. -/
def throttleMs (delay_seconds : Int) : Option Int :=
  if 0 < delay_seconds then
    let t := delay_seconds * 1000 / (kConcurrency : Int)
    some (if t < 1000 then 1000 else t)
  else
    none

/-- C9: between successive task launches the orchestrator sleeps for
max(1000ms, configuredDelaySeconds*1000/K) with K = 4; the throttle is skipped
entirely when the configured delay is zero; and with a configured delay of 8
seconds the inter-launch throttle is exactly 2000ms. -/
theorem C9_launch_throttle (d : Int) :
    (0 < d → throttleMs d = some (max 1000 (d * 1000 / 4))) ∧
    throttleMs 0 = none ∧
    throttleMs 8 = some 2000 := by
  refine ⟨fun h => ?_, rfl, by decide⟩
  simp only [throttleMs, if_pos h, kConcurrency, Nat.cast_ofNat]
  rcases lt_or_le (d * 1000 / 4) 1000 with hlt | hle
  · rw [if_pos hlt, max_eq_left hlt.le]
  · rw [if_neg (not_lt.2 hle), max_eq_right hle]

/-- Witness for C9 at the spec's concrete scenario: delay 8s gives 2000ms. -/
theorem C9_launch_throttle_witness :
    throttleMs 8 = some (max 1000 (8 * 1000 / 4)) :=
  (C9_launch_throttle 8).1 (by decide)

end Bluray
